import Mathlib

/-!
A shallow embedding of the specs + tetra ECS demo (`src/main.rs`) and proofs about its
two systems (movement, lifetime), its hard-coded initial world, and its start-up
error paths.  The component storages and entity deletion come from the external
`specs` crate, which is not part of this repository's sources; those parts are
modelled from the specification document, as marked on the individual definitions.
-/

namespace SpecsTetra

/-- 2D integer vector (`tetra::math::Vec2<i32>`), the payload of `Position` and
`Velocity` components. -/
structure Vec2 where
  x : Int
  y : Int
deriving DecidableEq

/-- Sprite clip rectangle (`tetra::graphics::Rectangle`).  The demo only ever builds
rectangles from whole numbers (`Rectangle::new(0.0, 0.0, 1.0, 1.0)` and
`Rectangle::new(0.0, 1.0, 1.0, 1.0)`), so the fields are carried as integers. -/
structure Rect where
  x : Int
  y : Int
  w : Int
  h : Int
deriving DecidableEq

/-- `const SCREEN_SIZE: i32 = 20;` — the grid size. -/
def SCREEN_SIZE : Int := 20

/-- `const INITIAL_TAIL: usize = 5;` — the initial `Lifetime` counter. -/
def INITIAL_TAIL : Nat := 5

/-- Modelled from the spec: the `specs` crate's `World` (external to this repository)
owns one dense storage per registered component type, mapping entity identifiers to
component values.  Each storage is a map from entity id to an optional component,
covering the four registered types `Position`, `Velocity`, `Lifetime`, `Sprite`. -/
structure World where
  positions : Nat → Option Vec2
  velocities : Nat → Option Vec2
  lifetimes : Nat → Option Nat
  sprites : Nat → Option Rect

/-- Two's-complement normalization of an unbounded integer into the `i32` range
`[-2147483648, 2147483648)`. -/
def toI32 (n : Int) : Int :=
  (n + 2147483648) % 4294967296 - 2147483648

/-- Rust `i32` addition as performed by the release build: the mathematical sum
reduced into the `i32` range (a debug build would instead abort on overflow; either
way, on overflow the program does not produce the mathematical sum). -/
def i32add (a b : Int) : Int :=
  toI32 (a + b)

/-- One axis of the loop body of `MovementSystem::run`:
`(pos + vel + SCREEN_SIZE) % SCREEN_SIZE`, with both `+` performed in `i32`
(left-associated, wrapping on overflow).  Rust's `%` on `i32` is the truncated
remainder, which on `Int` is `Int.tmod` (not the Euclidean `%`); with divisor
`SCREEN_SIZE = 20` the remainder itself cannot overflow. -/
def wrapAxis (p v : Int) : Int :=
  Int.tmod (i32add (i32add p v) SCREEN_SIZE) SCREEN_SIZE

/-- The loop body of `MovementSystem::run` on one `(Position, Velocity)` pair,
applied independently per axis. -/
def moveStep (p v : Vec2) : Vec2 :=
  ⟨wrapAxis p.x v.x, wrapAxis p.y v.y⟩

/-- `MovementSystem::run`: the join `(&mut pos, &vel).join()` visits exactly the
entities that have both a `Position` and a `Velocity` and rewrites their `Position`
with `moveStep`; all other storages, and positions of entities without a velocity,
are untouched. -/
def movementSystem (w : World) : World :=
  { w with
    positions := fun e =>
      match w.positions e, w.velocities e with
      | some p, some v => some (moveStep p v)
      | p, _ => p }

/-- Modelled from the spec: the movement contract's formula
`(position + velocity + gridSize) mod gridSize` read with the mathematical
(Euclidean) remainder, which on `Int` is Lean's `%`.  Kept separate from `wrapAxis`
so the two readings can be compared. -/
def wrapAxisSpec (p v : Int) : Int :=
  (p + v + SCREEN_SIZE) % SCREEN_SIZE

/-- Per-pair movement step under the spec's mathematical-mod reading. -/
def moveStepSpec (p v : Vec2) : Vec2 :=
  ⟨wrapAxisSpec p.x v.x, wrapAxisSpec p.y v.y⟩

/-- Whether the lifetime pass destroys entity `e`: the `else` branch of
`LifetimeSystem::run` calls `entities.delete(entity)` exactly when the entity's
`Lifetime` counter is `0` (the `lifetime.0 > 0` test fails). -/
def dies (w : World) (e : Nat) : Bool :=
  match w.lifetimes e with
  | some 0 => true
  | _ => false

/-- `LifetimeSystem::run`.  For every entity with a `Lifetime`, a positive counter is
decremented; a zero counter triggers `entities.delete(entity)`.  Modelled from the
spec: deletion (in the external `specs` crate) removes all of the entity's components
from every storage and does not disturb the iteration over other entities. -/
def lifetimeSystem (w : World) : World where
  positions := fun e => if dies w e then none else w.positions e
  velocities := fun e => if dies w e then none else w.velocities e
  lifetimes := fun e => if dies w e then none else (w.lifetimes e).map (fun n => n - 1)
  sprites := fun e => if dies w e then none else w.sprites e

/-- One `GameState::update` tick: `dispatcher.dispatch` runs the two registered
systems.  They are declared with no dependencies and touch the storages
compatibly, so running movement then lifetime realises the dispatch. -/
def update (w : World) : World :=
  lifetimeSystem (movementSystem w)

/-- Modelled from the spec: destruction of entity `d` removes all of its components
from every storage and leaves every other entity's components in place. -/
def deleteEntity (d : Nat) (w : World) : World where
  positions := fun e => if e = d then none else w.positions e
  velocities := fun e => if e = d then none else w.velocities e
  lifetimes := fun e => if e = d then none else w.lifetimes e
  sprites := fun e => if e = d then none else w.sprites e

/-- `GameState::new`: the world after registering the four component types and
building the two hard-coded entities, with ids in creation order.  Entity `0` has
`Velocity (1, 0)`, `Position (0, 0)`, `Lifetime INITIAL_TAIL` and the first sprite
clip; entity `1` has only `Position (2, 0)` and the second sprite clip. -/
def initWorld : World where
  positions := fun e => if e = 0 then some ⟨0, 0⟩ else if e = 1 then some ⟨2, 0⟩ else none
  velocities := fun e => if e = 0 then some ⟨1, 0⟩ else none
  lifetimes := fun e => if e = 0 then some INITIAL_TAIL else none
  sprites := fun e =>
    if e = 0 then some ⟨0, 0, 1, 1⟩ else if e = 1 then some ⟨0, 1, 1, 1⟩ else none

/-- Whether a start-up result is a success. -/
def resultOk : Except String World → Bool
  | Except.ok _ => true
  | Except.error _ => false

/-- `GameState::new` as seen by the caller.  Modelled from the spec: the only
fallible call in its body is `Texture::new(ctx, "./assets/spritesheet.png")?`; the
oracle `texOk` records whether that external load succeeds.  Everything else
(registration, entity building, dispatcher construction) is infallible. -/
def gameStateNew (texOk : Bool) : Except String World :=
  if texOk then Except.ok initWorld else Except.error "texture"

/-- `main` as seen by the operating system.  Modelled from the spec: the oracle
`ctxOk` records whether the external `ContextBuilder::build()?` call succeeds;
on success the context runs `GameState::new`, whose error propagates. -/
def mainResult (ctxOk texOk : Bool) : Except String World :=
  if ctxOk then gameStateNew texOk else Except.error "context"

/-- `GameState::update` returns `Ok(())` unconditionally after dispatching. -/
def updateResult (w : World) : Except String World :=
  Except.ok (update w)

/-- The per-entity trace of the `Lifetime` storage across one tick: a positive
counter is decremented, a zero counter means the entity is destroyed (the component
disappears), and an absent component stays absent. -/
def lifeTick : Option Nat → Option Nat
  | some (n + 1) => some n
  | _ => none

/-- Two worlds agreeing on every storage at entity `e`. -/
def agreesAt (e : Nat) (v w : World) : Prop :=
  v.positions e = w.positions e ∧ v.velocities e = w.velocities e ∧
    v.lifetimes e = w.lifetimes e ∧ v.sprites e = w.sprites e

/-- A one-entity world with `Position (-30, 0)` and `Velocity (0, 0)`. -/
def cexWorldA : World where
  positions := fun e => if e = 0 then some ⟨-30, 0⟩ else none
  velocities := fun e => if e = 0 then some ⟨0, 0⟩ else none
  lifetimes := fun _ => none
  sprites := fun _ => none

/-- A one-entity world with `Position (-25, 0)` and `Velocity (0, 0)`. -/
def cexWorldB : World where
  positions := fun e => if e = 0 then some ⟨-25, 0⟩ else none
  velocities := fun e => if e = 0 then some ⟨0, 0⟩ else none
  lifetimes := fun _ => none
  sprites := fun _ => none

/-- A one-entity world at the upper `i32` boundary: `Position (2147483647, 0)` —
`i32::MAX` — and `Velocity (0, 0)`. -/
def cexWorldC : World where
  positions := fun e => if e = 0 then some ⟨2147483647, 0⟩ else none
  velocities := fun e => if e = 0 then some ⟨0, 0⟩ else none
  lifetimes := fun _ => none
  sprites := fun _ => none

/-- A one-entity world at the wrap corner: `Position (19, 0)`, `Velocity (1, 0)`. -/
def wrapWorld : World where
  positions := fun e => if e = 0 then some ⟨19, 0⟩ else none
  velocities := fun e => if e = 0 then some ⟨1, 0⟩ else none
  lifetimes := fun _ => none
  sprites := fun _ => none

/-! Helper lemmas about the systems. -/

theorem toI32_eq_self {n : Int} (h0 : -2147483648 ≤ n) (h1 : n < 2147483648) :
    toI32 n = n := by
  unfold toI32
  have h : (n + 2147483648) % 4294967296 = n + 2147483648 :=
    Int.emod_eq_of_lt (by omega) (by omega)
  omega

theorem wrapAxis_of_no_overflow {p v : Int} (h0 : 0 ≤ p + v + SCREEN_SIZE)
    (h1 : p + v + SCREEN_SIZE < 2147483648) :
    wrapAxis p v = Int.tmod (p + v + SCREEN_SIZE) SCREEN_SIZE := by
  have hS : SCREEN_SIZE = 20 := rfl
  unfold wrapAxis i32add
  have e1 : toI32 (p + v) = p + v := toI32_eq_self (by omega) (by omega)
  rw [e1]
  have e2 : toI32 (p + v + SCREEN_SIZE) = p + v + SCREEN_SIZE :=
    toI32_eq_self (by omega) (by omega)
  rw [e2]

theorem movementSystem_velocities (w : World) : (movementSystem w).velocities = w.velocities :=
  rfl

theorem movementSystem_lifetimes (w : World) : (movementSystem w).lifetimes = w.lifetimes :=
  rfl

theorem movementSystem_sprites (w : World) : (movementSystem w).sprites = w.sprites :=
  rfl

theorem movementSystem_positions_of_velocity_none (w : World) (e : Nat)
    (h : w.velocities e = none) : (movementSystem w).positions e = w.positions e := by
  show (match w.positions e, w.velocities e with
        | some p, some v => some (moveStep p v)
        | p, _ => p) = w.positions e
  rw [h]
  cases w.positions e <;> rfl

theorem movementSystem_positions_of_both (w : World) (e : Nat) (p v : Vec2)
    (hp : w.positions e = some p) (hv : w.velocities e = some v) :
    (movementSystem w).positions e = some (moveStep p v) := by
  show (match w.positions e, w.velocities e with
        | some q, some u => some (moveStep q u)
        | q, _ => q) = some (moveStep p v)
  rw [hp, hv]

theorem dies_movementSystem (w : World) (e : Nat) : dies (movementSystem w) e = dies w e :=
  rfl

theorem dies_eq_false (w : World) (e n : Nat) (h : w.lifetimes e = some n) (hn : 0 < n) :
    dies w e = false := by
  unfold dies
  rw [h]
  cases n with
  | zero => exact absurd hn (by omega)
  | succ m => rfl

theorem dies_eq_false_of_none (w : World) (e : Nat) (h : w.lifetimes e = none) :
    dies w e = false := by
  unfold dies
  rw [h]

theorem dies_eq_true (w : World) (e : Nat) (h : w.lifetimes e = some 0) :
    dies w e = true := by
  unfold dies
  rw [h]

theorem update_lifetimes (w : World) (e : Nat) :
    (update w).lifetimes e = lifeTick (w.lifetimes e) := by
  show (if dies (movementSystem w) e then none
        else ((movementSystem w).lifetimes e).map (fun n => n - 1)) = lifeTick (w.lifetimes e)
  rw [dies_movementSystem, movementSystem_lifetimes]
  cases h : w.lifetimes e with
  | none => rw [dies_eq_false_of_none w e h]; rfl
  | some n =>
      cases n with
      | zero => rw [dies_eq_true w e h]; rfl
      | succ m => rw [dies_eq_false w e (m + 1) h (by omega)]; rfl

theorem iterate_update_lifetimes (w : World) (e : Nat) (k : Nat) :
    (update^[k] w).lifetimes e = lifeTick^[k] (w.lifetimes e) := by
  induction k generalizing w with
  | zero => rfl
  | succ k ih =>
      rw [Function.iterate_succ_apply, Function.iterate_succ_apply, ih (update w),
        update_lifetimes]

theorem lifeTick_iterate_of_le (N k : Nat) (h : k ≤ N) :
    lifeTick^[k] (some N) = some (N - k) := by
  induction k generalizing N with
  | zero => rfl
  | succ k ih =>
      cases N with
      | zero => exact absurd h (by omega)
      | succ N =>
          rw [Function.iterate_succ_apply]
          show lifeTick^[k] (some N) = some (N + 1 - (k + 1))
          rw [ih N (by omega)]
          congr 1
          omega

theorem update_kills (w : World) (e : Nat) (h : w.lifetimes e = some 0) :
    (update w).positions e = none ∧ (update w).velocities e = none ∧
      (update w).lifetimes e = none ∧ (update w).sprites e = none := by
  have hd : dies (movementSystem w) e = true := by
    rw [dies_movementSystem]
    exact dies_eq_true w e h
  refine ⟨?_, ?_, ?_, ?_⟩ <;> simp [update, lifetimeSystem, hd]

theorem update_inert (w : World) (e : Nat) (hv : w.velocities e = none)
    (hl : w.lifetimes e = none) :
    (update w).positions e = w.positions e ∧ (update w).velocities e = none ∧
      (update w).lifetimes e = none ∧ (update w).sprites e = w.sprites e := by
  have hd : dies (movementSystem w) e = false := by
    rw [dies_movementSystem]
    exact dies_eq_false_of_none w e hl
  have hp : (movementSystem w).positions e = w.positions e :=
    movementSystem_positions_of_velocity_none w e hv
  refine ⟨?_, ?_, ?_, ?_⟩ <;>
    simp [update, lifetimeSystem, hd, hp, movementSystem_velocities,
      movementSystem_lifetimes, movementSystem_sprites, hv, hl]

theorem lifetimeSystem_local (e : Nat) (v w : World) (h : agreesAt e v w) :
    agreesAt e (lifetimeSystem v) (lifetimeSystem w) := by
  obtain ⟨h1, h2, h3, h4⟩ := h
  have hd : dies v e = dies w e := by unfold dies; rw [h3]
  refine ⟨?_, ?_, ?_, ?_⟩ <;> simp [lifetimeSystem, hd, h1, h2, h3, h4]

theorem deleteEntity_agrees (d e : Nat) (h : d ≠ e) (w : World) :
    agreesAt e (deleteEntity d w) w := by
  have he : ¬ e = d := fun hh => h hh.symm
  refine ⟨?_, ?_, ?_, ?_⟩ <;> simp [deleteEntity, he]

theorem entity1_constant (k : Nat) :
    (update^[k] initWorld).positions 1 = some ⟨2, 0⟩ ∧
      (update^[k] initWorld).velocities 1 = none ∧
      (update^[k] initWorld).lifetimes 1 = none ∧
      (update^[k] initWorld).sprites 1 = some ⟨0, 1, 1, 1⟩ := by
  induction k with
  | zero => exact ⟨rfl, rfl, rfl, rfl⟩
  | succ k ih =>
      obtain ⟨hp, hv, hl, hs⟩ := ih
      have h := update_inert (update^[k] initWorld) 1 hv hl
      rw [Function.iterate_succ_apply']
      exact ⟨h.1.trans hp, h.2.1, h.2.2.1, (h.2.2.2).trans hs⟩

/-! Claim theorems. -/

/-- C1 counterexample: with `Position (-30, 0)` and `Velocity (0, 0)` — integer values
the claim quantifies over — one movement pass yields `Position (-10, 0)`, whose x axis
is negative and hence outside `[0, SCREEN_SIZE)`: Rust's truncated `%` does not wrap
negative sums into the grid.  Likewise at `Position (i32::MAX, 0)`, `Velocity (0, 0)`
the wrapping `i32` sum turns negative and the pass stores `(-9, 0)`. -/
theorem movement_range_cex :
    (movementSystem cexWorldA).positions 0 = some ⟨-10, 0⟩ ∧
      (movementSystem cexWorldC).positions 0 = some ⟨-9, 0⟩ ∧
      ¬ (0 : Int) ≤ -10 ∧ ¬ (0 : Int) ≤ -9 := by
  decide

/-- C1 (amended): for every entity with both `Position` and `Velocity`, if on each axis
the sum `position + velocity + SCREEN_SIZE` is non-negative and below `2^31` (so that
the `i32` additions neither produce a negative operand for `%` nor overflow), then one
movement pass leaves each axis of the new `Position` in `[0, SCREEN_SIZE)`. -/
theorem movement_range (w : World) (e : Nat) (p v : Vec2)
    (hp : w.positions e = some p) (hv : w.velocities e = some v)
    (hx0 : 0 ≤ p.x + v.x + SCREEN_SIZE) (hx1 : p.x + v.x + SCREEN_SIZE < 2147483648)
    (hy0 : 0 ≤ p.y + v.y + SCREEN_SIZE) (hy1 : p.y + v.y + SCREEN_SIZE < 2147483648) :
    (movementSystem w).positions e = some (moveStep p v) ∧
      0 ≤ (moveStep p v).x ∧ (moveStep p v).x < SCREEN_SIZE ∧
      0 ≤ (moveStep p v).y ∧ (moveStep p v).y < SCREEN_SIZE := by
  have ex : (moveStep p v).x = Int.tmod (p.x + v.x + SCREEN_SIZE) SCREEN_SIZE :=
    wrapAxis_of_no_overflow hx0 hx1
  have ey : (moveStep p v).y = Int.tmod (p.y + v.y + SCREEN_SIZE) SCREEN_SIZE :=
    wrapAxis_of_no_overflow hy0 hy1
  refine ⟨movementSystem_positions_of_both w e p v hp hv, ?_, ?_, ?_, ?_⟩
  · rw [ex]; exact Int.tmod_nonneg SCREEN_SIZE hx0
  · rw [ex]; exact Int.tmod_lt_of_pos _ (by decide)
  · rw [ey]; exact Int.tmod_nonneg SCREEN_SIZE hy0
  · rw [ey]; exact Int.tmod_lt_of_pos _ (by decide)

/-- Witness for C1 at the initial snake entity: `Position (0, 0)`, `Velocity (1, 0)`. -/
theorem movement_range_witness :
    (movementSystem initWorld).positions 0 = some (moveStep ⟨0, 0⟩ ⟨1, 0⟩) ∧
      0 ≤ (moveStep ⟨0, 0⟩ ⟨1, 0⟩).x ∧ (moveStep ⟨0, 0⟩ ⟨1, 0⟩).x < SCREEN_SIZE ∧
      0 ≤ (moveStep ⟨0, 0⟩ ⟨1, 0⟩).y ∧ (moveStep ⟨0, 0⟩ ⟨1, 0⟩).y < SCREEN_SIZE :=
  movement_range initWorld 0 ⟨0, 0⟩ ⟨1, 0⟩ rfl rfl (by decide) (by decide) (by decide)
    (by decide)

/-- C2 counterexample: with `Position (-25, 0)` and `Velocity (0, 0)` the movement pass
stores `(-5, 0)` (truncated remainder), while the claimed formula
`(position + velocity + gridSize) mod gridSize` gives `(15, 0)`: the stored position is
not the mathematical mod of the sum. -/
theorem movement_contract_cex :
    (movementSystem cexWorldB).positions 0 = some ⟨-5, 0⟩ ∧
      moveStepSpec ⟨-25, 0⟩ ⟨0, 0⟩ = ⟨15, 0⟩ ∧
      (movementSystem cexWorldB).positions 0 ≠ some (moveStepSpec ⟨-25, 0⟩ ⟨0, 0⟩) := by
  decide

/-- C2 (amended): for every entity with both `Position` and `Velocity`, whenever the
per-axis sums `position + velocity + SCREEN_SIZE` are non-negative and below `2^31`
(so that the `i32` additions do not overflow), one movement pass replaces `Position`
with `(position + velocity + SCREEN_SIZE) mod SCREEN_SIZE` per axis (the truncated
remainder then agrees with the mathematical mod); the movement system leaves the
velocity, lifetime and sprite storages entirely unchanged; and in particular
`Position (SCREEN_SIZE - 1, 0)` with `Velocity (1, 0)` steps to `(0, 0)`. -/
theorem movement_contract (w : World) (e : Nat) (p v : Vec2)
    (hp : w.positions e = some p) (hv : w.velocities e = some v)
    (hx0 : 0 ≤ p.x + v.x + SCREEN_SIZE) (hx1 : p.x + v.x + SCREEN_SIZE < 2147483648)
    (hy0 : 0 ≤ p.y + v.y + SCREEN_SIZE) (hy1 : p.y + v.y + SCREEN_SIZE < 2147483648) :
    (movementSystem w).positions e = some (moveStepSpec p v) ∧
      (movementSystem w).velocities = w.velocities ∧
      (movementSystem w).lifetimes = w.lifetimes ∧
      (movementSystem w).sprites = w.sprites ∧
      moveStep ⟨SCREEN_SIZE - 1, 0⟩ ⟨1, 0⟩ = ⟨0, 0⟩ := by
  have hxx : wrapAxis p.x v.x = wrapAxisSpec p.x v.x := by
    rw [wrapAxis_of_no_overflow hx0 hx1]
    exact Int.tmod_eq_emod hx0 (by decide)
  have hyy : wrapAxis p.y v.y = wrapAxisSpec p.y v.y := by
    rw [wrapAxis_of_no_overflow hy0 hy1]
    exact Int.tmod_eq_emod hy0 (by decide)
  have hstep : moveStep p v = moveStepSpec p v := by
    unfold moveStep moveStepSpec
    rw [hxx, hyy]
  refine ⟨?_, rfl, rfl, rfl, by decide⟩
  rw [movementSystem_positions_of_both w e p v hp hv, hstep]

/-- Witness for C2 at the wrap corner: `Position (19, 0)`, `Velocity (1, 0)`. -/
theorem movement_contract_witness :
    (movementSystem wrapWorld).positions 0 = some (moveStepSpec ⟨19, 0⟩ ⟨1, 0⟩) ∧
      (movementSystem wrapWorld).velocities = wrapWorld.velocities ∧
      (movementSystem wrapWorld).lifetimes = wrapWorld.lifetimes ∧
      (movementSystem wrapWorld).sprites = wrapWorld.sprites ∧
      moveStep ⟨SCREEN_SIZE - 1, 0⟩ ⟨1, 0⟩ = ⟨0, 0⟩ :=
  movement_contract wrapWorld 0 ⟨19, 0⟩ ⟨1, 0⟩ rfl rfl (by decide) (by decide) (by decide)
    (by decide)

/-- C3: for every entity with a `Lifetime` counter, one lifetime pass decrements a
positive counter and leaves the entity's other components alone; a zero counter marks
the entity for destruction, after which none of its components remains in any
storage. -/
theorem lifetime_pass (w : World) (e n : Nat) (h : w.lifetimes e = some n) :
    (0 < n →
      (lifetimeSystem w).lifetimes e = some (n - 1) ∧
        (lifetimeSystem w).positions e = w.positions e ∧
        (lifetimeSystem w).velocities e = w.velocities e ∧
        (lifetimeSystem w).sprites e = w.sprites e) ∧
      (n = 0 →
        (lifetimeSystem w).positions e = none ∧
          (lifetimeSystem w).velocities e = none ∧
          (lifetimeSystem w).lifetimes e = none ∧
          (lifetimeSystem w).sprites e = none) := by
  constructor
  · intro hn
    have hd := dies_eq_false w e n h hn
    refine ⟨?_, ?_, ?_, ?_⟩ <;> simp [lifetimeSystem, hd, h]
  · intro hn
    subst hn
    have hd := dies_eq_true w e h
    refine ⟨?_, ?_, ?_, ?_⟩ <;> simp [lifetimeSystem, hd]

/-- Witness for C3 at the initial snake entity, whose counter is `5 > 0`. -/
theorem lifetime_pass_witness :
    (lifetimeSystem initWorld).lifetimes 0 = some 4 ∧
      (lifetimeSystem initWorld).positions 0 = initWorld.positions 0 ∧
      (lifetimeSystem initWorld).velocities 0 = initWorld.velocities 0 ∧
      (lifetimeSystem initWorld).sprites 0 = initWorld.sprites 0 :=
  (lifetime_pass initWorld 0 5 rfl).1 (by decide)

/-- C4: an entity whose `Lifetime` counter is `N` survives the first `N` update ticks,
its counter reading `N - k` after `k ≤ N` ticks (so `0` after tick `N`), and on the
following tick — the `(N+1)`-st — every one of its components is removed from every
storage. -/
theorem lifetime_destruction (w : World) (e N : Nat) (h : w.lifetimes e = some N) :
    (∀ k, k ≤ N → (update^[k] w).lifetimes e = some (N - k)) ∧
      (update^[N + 1] w).positions e = none ∧
      (update^[N + 1] w).velocities e = none ∧
      (update^[N + 1] w).lifetimes e = none ∧
      (update^[N + 1] w).sprites e = none := by
  have hk : ∀ k, k ≤ N → (update^[k] w).lifetimes e = some (N - k) := by
    intro k hkN
    rw [iterate_update_lifetimes, h, lifeTick_iterate_of_le N k hkN]
  have h0 : (update^[N] w).lifetimes e = some 0 := by
    have := hk N le_rfl
    simpa using this
  have hkill := update_kills (update^[N] w) e h0
  refine ⟨hk, ?_, ?_, ?_, ?_⟩ <;> rw [Function.iterate_succ_apply']
  · exact hkill.1
  · exact hkill.2.1
  · exact hkill.2.2.1
  · exact hkill.2.2.2

/-- Witness for C4 at the initial snake entity with `Lifetime 5`: counter `3` after two
ticks, and all components gone after the sixth tick. -/
theorem lifetime_destruction_witness :
    (update^[2] initWorld).lifetimes 0 = some 3 ∧
      (update^[6] initWorld).positions 0 = none ∧
      (update^[6] initWorld).velocities 0 = none ∧
      (update^[6] initWorld).lifetimes 0 = none ∧
      (update^[6] initWorld).sprites 0 = none :=
  ⟨(lifetime_destruction initWorld 0 5 rfl).1 2 (by omega),
    (lifetime_destruction initWorld 0 5 rfl).2⟩

/-- C5 counterexample: after 5 update ticks the first entity is not yet removed — it is
still present with `Position (5, 0)`, `Lifetime 0` and its sprite still stored.  With
`Lifetime 5` and the check-then-decrement loop, destruction happens on the sixth tick,
not the fifth. -/
theorem two_entity_run_cex :
    (update^[5] initWorld).positions 0 = some ⟨5, 0⟩ ∧
      (update^[5] initWorld).lifetimes 0 = some 0 ∧
      (update^[5] initWorld).sprites 0 = some ⟨0, 0, 1, 1⟩ := by
  decide

/-- C5 (amended): starting from the program's initial world — entity `0` with
`Position (0, 0)`, `Velocity (1, 0)`, `Lifetime 5`, entity `1` with `Position (2, 0)`
and no `Velocity` or `Lifetime` — after 6 update ticks (not 5) the first entity is
fully removed from every storage, while the second entity keeps `Position (2, 0)`
unchanged after every number of ticks. -/
theorem two_entity_run (k : Nat) :
    (update^[6] initWorld).positions 0 = none ∧
      (update^[6] initWorld).velocities 0 = none ∧
      (update^[6] initWorld).lifetimes 0 = none ∧
      (update^[6] initWorld).sprites 0 = none ∧
      (update^[k] initWorld).positions 1 = some ⟨2, 0⟩ ∧
      (update^[k] initWorld).velocities 1 = none ∧
      (update^[k] initWorld).lifetimes 1 = none := by
  have h := entity1_constant k
  exact ⟨by decide, by decide, by decide, by decide, h.1, h.2.1, h.2.2.1⟩

/-- C6: an entity without a `Velocity` component is skipped by the movement join, so any
number of movement passes leaves its `Position` exactly as it was. -/
theorem movement_frame (w : World) (e : Nat) (h : w.velocities e = none) (k : Nat) :
    (movementSystem^[k] w).positions e = w.positions e := by
  induction k generalizing w with
  | zero => rfl
  | succ k ih =>
      rw [Function.iterate_succ_apply]
      have hv : (movementSystem w).velocities e = none := h
      rw [ih (movementSystem w) hv, movementSystem_positions_of_velocity_none w e h]

/-- Witness for C6 at the second initial entity, which has no `Velocity`. -/
theorem movement_frame_witness :
    (movementSystem^[3] initWorld).positions 1 = initWorld.positions 1 :=
  movement_frame initWorld 1 rfl 3

/-- C7: deleting entity `d` (removing all of its components) changes nothing for any
other entity `e` across any number of lifetime passes: every storage agrees at `e`
between the run that starts after deleting `d` and the run that keeps `d`, in the same
pass and in all later passes. -/
theorem deletion_frame (w : World) (d e : Nat) (hne : d ≠ e) (k : Nat) :
    agreesAt e (lifetimeSystem^[k] (deleteEntity d w)) (lifetimeSystem^[k] w) := by
  induction k with
  | zero => exact deleteEntity_agrees d e hne w
  | succ k ih =>
      rw [Function.iterate_succ_apply', Function.iterate_succ_apply']
      exact lifetimeSystem_local e _ _ ih

/-- Witness for C7: deleting entity `0` of the initial world leaves entity `1` with the
same components through two lifetime passes. -/
theorem deletion_frame_witness :
    agreesAt 1 (lifetimeSystem^[2] (deleteEntity 0 initWorld))
      (lifetimeSystem^[2] initWorld) :=
  deletion_frame initWorld 0 1 (by decide) 2

/-- C8: the movement system never touches the velocity or sprite storages at all, and
across a whole update tick an entity's `Velocity` or `Sprite` value is never changed:
a stored value either survives the tick identically or disappears (only through the
entity's destruction), and any value present after the tick was already present,
unchanged, before it. -/
theorem velocity_sprite_const (w : World) (e : Nat) :
    (movementSystem w).velocities = w.velocities ∧
      (movementSystem w).sprites = w.sprites ∧
      (∀ v, w.velocities e = some v →
        (update w).velocities e = some v ∨ (update w).velocities e = none) ∧
      (∀ v, (update w).velocities e = some v → w.velocities e = some v) ∧
      (∀ s, w.sprites e = some s →
        (update w).sprites e = some s ∨ (update w).sprites e = none) ∧
      (∀ s, (update w).sprites e = some s → w.sprites e = some s) := by
  have hv : (update w).velocities e
      = if dies (movementSystem w) e then none else w.velocities e := rfl
  have hs : (update w).sprites e
      = if dies (movementSystem w) e then none else w.sprites e := rfl
  cases hd : dies (movementSystem w) e with
  | false =>
      rw [hd] at hv hs
      simp only [if_neg Bool.false_ne_true] at hv hs
      refine ⟨rfl, rfl, ?_, ?_, ?_, ?_⟩
      · intro v hvv; rw [hv]; exact Or.inl hvv
      · intro v hvv; rw [hv] at hvv; exact hvv
      · intro s hss; rw [hs]; exact Or.inl hss
      · intro s hss; rw [hs] at hss; exact hss
  | true =>
      rw [hd] at hv hs
      simp only [if_pos] at hv hs
      refine ⟨rfl, rfl, ?_, ?_, ?_, ?_⟩
      · intro v hvv; exact Or.inr hv
      · intro v hvv; rw [hv] at hvv; exact Option.noConfusion hvv
      · intro s hss; exact Or.inr hs
      · intro s hss; rw [hs] at hss; exact Option.noConfusion hss

/-- Witness for C8: entity `0`'s stored velocity after one tick was already stored,
unchanged, before the tick. -/
theorem velocity_sprite_const_witness :
    initWorld.velocities 0 = some ⟨1, 0⟩ :=
  (velocity_sprite_const initWorld 0).2.2.2.1 ⟨1, 0⟩ (by decide)

/-- C9: the only failure points are the two external start-up effects — context/window
creation (`ctxOk`) and texture loading (`texOk`): `main` succeeds exactly when both
succeed, `GameState::new` succeeds exactly when the texture loads, and once the loop
runs, `update` returns a success on every tick, unconditionally. -/
theorem startup_failures :
    (∀ c t : Bool, resultOk (mainResult c t) = (c && t)) ∧
      (∀ t : Bool, resultOk (gameStateNew t) = t) ∧
      (∀ w : World, updateResult w = Except.ok (update w)) := by
  refine ⟨?_, ?_, fun w => rfl⟩
  · intro c t
    cases c <;> cases t <;> rfl
  · intro t
    cases t <;> rfl

/-- C10: the decrement in `LifetimeSystem::run` is guarded by `lifetime.0 > 0`: a
positive counter `n` is decremented to `n - 1 < n` (an exact, non-underflowing
subtraction), while a counter equal to `0` is never decremented — the entity is
deleted instead, so its `Lifetime` component simply disappears. -/
theorem lifetime_guard (w : World) (e n : Nat) (h : w.lifetimes e = some n) :
    (0 < n → (lifetimeSystem w).lifetimes e = some (n - 1) ∧ n - 1 < n) ∧
      (n = 0 → (lifetimeSystem w).lifetimes e = none) := by
  constructor
  · intro hn
    have hd := dies_eq_false w e n h hn
    constructor
    · simp [lifetimeSystem, hd, h]
    · omega
  · intro hn
    subst hn
    have hd := dies_eq_true w e h
    simp [lifetimeSystem, hd]

/-- Witness for C10 at the initial snake entity, whose counter is `5 > 0`. -/
theorem lifetime_guard_witness :
    (lifetimeSystem initWorld).lifetimes 0 = some 4 ∧ 4 < 5 :=
  (lifetime_guard initWorld 0 5 rfl).1 (by decide)

end SpecsTetra
